import Mathlib

/-!
Verification of the process-split / transport layer of the opencode CLI
(TUI thread supervisor, fetch bridge, mode selection, selection copy).

Each definition is a shallow embedding of the corresponding TypeScript
source. Asynchronous sequencing (`await` chains) is modelled by ordered
lists of actions: a list position earlier than another means the action
completed before the later one started on that code path.
-/

/-- Resolved network options, as produced by `resolveNetworkOptions`:
`{ port: integer >= 0, hostname: string, mdns: boolean }`. -/
structure NetworkOptions where
  port : Nat
  hostname : String
  mdns : Bool
deriving DecidableEq, Repr

/-- The two operating modes of the TUI/worker pair. -/
inductive Mode where
  | direct
  | server
deriving DecidableEq, Repr

/-- From `thread.ts` lines 228-234: `shouldStartServer` is true when an
explicit networking flag appears on the command line (`process.argv`), or
the resolved options request networking (`mdns`, nonzero `port`, or a
hostname other than `"127.0.0.1"`). -/
def shouldStartServer (argv : List String) (opts : NetworkOptions) : Bool :=
  argv.contains "--port" || argv.contains "--hostname" || argv.contains "--mdns" ||
    opts.mdns || (opts.port != 0) || (opts.hostname != "127.0.0.1")

/-- From `thread.ts` lines 240-249: the branch on `shouldStartServer`
selects HTTP server mode, otherwise direct RPC mode. -/
def selectMode (argv : List String) (opts : NetworkOptions) : Mode :=
  if shouldStartServer argv opts then Mode.server else Mode.direct

/-- Claim C1: Server mode is selected iff an explicit networking flag was
present, or the resolved options have `mdns` true, a nonzero port, or a
non-default hostname; the default options with no flags yield Direct, and
an explicit flag forces Server even at default resolved values. -/
theorem mode_selection_rule :
    (∀ (argv : List String) (opts : NetworkOptions),
      selectMode argv opts = Mode.server ↔
        ("--port" ∈ argv ∨ "--hostname" ∈ argv ∨ "--mdns" ∈ argv ∨
          opts.mdns = true ∨ opts.port ≠ 0 ∨ opts.hostname ≠ "127.0.0.1")) ∧
    selectMode [] ⟨0, "127.0.0.1", false⟩ = Mode.direct ∧
    selectMode ["--port"] ⟨0, "127.0.0.1", false⟩ = Mode.server := by
  have key : ∀ (argv : List String) (opts : NetworkOptions),
      shouldStartServer argv opts = true ↔
        ("--port" ∈ argv ∨ "--hostname" ∈ argv ∨ "--mdns" ∈ argv ∨
          opts.mdns = true ∨ opts.port ≠ 0 ∨ opts.hostname ≠ "127.0.0.1") := by
    intro argv opts
    simp [shouldStartServer, List.contains, or_assoc]
  refine ⟨fun argv opts => ?_, by decide, by decide⟩
  rw [← key]
  unfold selectMode
  by_cases h : shouldStartServer argv opts = true <;> simp [h]

/-- Structured failure carried by a rejected RPC call: either the backend
returned an error for this call, or the transport died while it was
pending. -/
inductive RpcFailure where
  | callFailure (message : String)
  | channelClosed
deriving DecidableEq, Repr

/-- An HTTP-like request as seen by the fetch function in
`createWorkerFetch` (`thread.ts` lines 23-25): `body` is `none` when
`request.body` is null (no body), and `some t` when a body exists whose
text flattening (`await request.text()`) is `t`. -/
structure WorkerRequest where
  url : String
  method : String
  headers : List (String × String)
  body : Option String
deriving DecidableEq, Repr

/-- The payload of the `"fetch"` RPC call (`thread.ts` lines 26-31). -/
structure FetchPayload where
  url : String
  method : String
  headers : List (String × String)
  body : Option String
deriving DecidableEq, Repr

/-- The result returned by the backend for a `"fetch"` call. -/
structure FetchResult where
  body : String
  status : Nat
  headers : List (String × String)
deriving DecidableEq, Repr

/-- The `Response` reconstructed by `createWorkerFetch`
(`thread.ts` lines 32-35). -/
structure WorkerResponse where
  body : String
  status : Nat
  headers : List (String × String)
deriving DecidableEq, Repr

/-- From `thread.ts` lines 25-31: the serialized payload of the `"fetch"`
call sends the request's url, method, header entries, and body text;
`body` is `undefined` (here `none`) exactly when the request has no
body. -/
def serializeFetchPayload (request : WorkerRequest) : FetchPayload :=
  { url := request.url
    method := request.method
    headers := request.headers
    body := request.body }

/-- From `thread.ts` lines 22-38: `createWorkerFetch` issues the `"fetch"`
RPC call with the serialized request and rebuilds a response from the
returned body text, status, and headers; a rejected call propagates as a
rejected fetch. -/
def createWorkerFetch (call : FetchPayload → Except RpcFailure FetchResult)
    (request : WorkerRequest) : Except RpcFailure WorkerResponse :=
  match call (serializeFetchPayload request) with
  | Except.ok result =>
      Except.ok { body := result.body, status := result.status, headers := result.headers }
  | Except.error e => Except.error e

/-- Claim C3: the fetch bridge sends the request's url, method, headers,
and body text as the `"fetch"` payload, and on a successful call returns
exactly the body, status, and headers the backend produced. -/
theorem fetch_bridge_round_trip (call : FetchPayload → Except RpcFailure FetchResult)
    (request : WorkerRequest) (result : FetchResult)
    (h : call (serializeFetchPayload request) = Except.ok result) :
    serializeFetchPayload request =
      { url := request.url, method := request.method,
        headers := request.headers, body := request.body } ∧
    createWorkerFetch call request =
      Except.ok { body := result.body, status := result.status, headers := result.headers } := by
  refine ⟨rfl, ?_⟩
  simp [createWorkerFetch, h]

/-- Concrete instance of C3: a backend result with body `"hello"`, status
200 and header `x: 1` reconstructs exactly that response. -/
theorem fetch_bridge_round_trip_witness :
    createWorkerFetch (fun _ => Except.ok ⟨"hello", 200, [("x", "1")]⟩)
        ⟨"http://opencode.internal/a", "GET", [], none⟩ =
      Except.ok ⟨"hello", 200, [("x", "1")]⟩ :=
  (fetch_bridge_round_trip (fun _ => Except.ok ⟨"hello", 200, [("x", "1")]⟩)
    ⟨"http://opencode.internal/a", "GET", [], none⟩ ⟨"hello", 200, [("x", "1")]⟩ rfl).2

/-- Claim C4: a request with no body serializes to a `"fetch"` payload
whose body field is absent (`none`), not the empty string; a request with
an empty-string body keeps `some ""`, so the distinction is preserved. -/
theorem fetch_payload_omits_absent_body (request : WorkerRequest)
    (h : request.body = none) :
    (serializeFetchPayload request).body = none ∧
    (serializeFetchPayload request).body ≠ some "" ∧
    (∀ request2 : WorkerRequest, request2.body = some "" →
      (serializeFetchPayload request2).body = some "") := by
  refine ⟨?_, ?_, ?_⟩
  · simpa [serializeFetchPayload] using h
  · simp [serializeFetchPayload, h]
  · intro request2 h2
    simpa [serializeFetchPayload] using h2

/-- Concrete instance of C4 at a bodyless GET request. -/
theorem fetch_payload_omits_absent_body_witness :
    (serializeFetchPayload ⟨"http://opencode.internal/a", "GET", [], none⟩).body = none ∧
    (serializeFetchPayload ⟨"http://opencode.internal/a", "GET", [], none⟩).body ≠ some "" :=
  ⟨(fetch_payload_omits_absent_body ⟨"http://opencode.internal/a", "GET", [], none⟩ rfl).1,
   (fetch_payload_omits_absent_body ⟨"http://opencode.internal/a", "GET", [], none⟩ rfl).2.1⟩

/-- From `thread.ts` lines 109-116: resolve the worker location once, by
priority — the build-time injected path if defined, else the packaged
distribution worker if it exists on disk, else the development worker. -/
def workerPath (injected : Option String) (distExists : Bool)
    (distWorker localWorker : String) : String :=
  match injected with
  | some p => p
  | none => if distExists then distWorker else localWorker

/-- Claim C6: worker location resolution tries, in order, the build-time
injected path, the packaged distribution path, and the development path;
the first candidate that is present wins. -/
theorem worker_path_first_candidate_wins (p : String) (distExists : Bool)
    (distWorker localWorker : String) :
    workerPath (some p) distExists distWorker localWorker = p ∧
    workerPath none true distWorker localWorker = distWorker ∧
    workerPath none false distWorker localWorker = localWorker := by
  refine ⟨?_, rfl, rfl⟩
  cases distExists <;> rfl

/-- Observable actions of the TUI command handler
(`TuiThreadCommand.handler` in `thread.ts`), in the order the handler's
`await` chain performs them. -/
inductive SupervisorAction where
  | resolveWorkerPath
  | uiError (message : String)
  | spawnWorker
  | registerSignalHandler (signal : String)
  | rpcCall (method : String)
  | constructBridges
  | launchTui
  | scheduleCheckUpgrade (delayMs : Nat)
  | awaitTui
deriving DecidableEq, Repr

/-- From `thread.ts` lines 104-273: the handler resolves the worker path,
attempts `process.chdir(cwd)` — reporting a UI error and returning on
failure — then spawns the worker, installs the process-wide handlers,
performs the mode-dependent step (`"server"` call or bridge
construction), launches the TUI, schedules the version check after a 1s
delay, and finally awaits the TUI promise. -/
def handlerTrace (chdirOk : Bool) (serverMode : Bool) : List SupervisorAction :=
  [SupervisorAction.resolveWorkerPath] ++
    if chdirOk then
      [SupervisorAction.spawnWorker,
        SupervisorAction.registerSignalHandler "uncaughtException",
        SupervisorAction.registerSignalHandler "unhandledRejection",
        SupervisorAction.registerSignalHandler "SIGUSR2"] ++
      (if serverMode then [SupervisorAction.rpcCall "server"]
        else [SupervisorAction.constructBridges]) ++
      [SupervisorAction.launchTui,
        SupervisorAction.scheduleCheckUpgrade 1000,
        SupervisorAction.awaitTui]
    else
      [SupervisorAction.uiError "Failed to change directory"]

/-- From `thread.ts` lines 143-146: the body of the `SIGUSR2` handler —
one awaited `"reload"` RPC call, nothing else. -/
def sigusr2Handler : List SupervisorAction :=
  [SupervisorAction.rpcCall "reload"]

/-- The actions performed after `n` occurrences of `SIGUSR2`: the handler
body runs once per delivered signal. -/
def sigusr2Trace : Nat → List SupervisorAction
  | 0 => []
  | n + 1 => sigusr2Trace n ++ sigusr2Handler

/-- Claim C7: each `SIGUSR2` occurrence produces exactly one `"reload"`
RPC call — `n` signals give `n` calls, no duplication — and the signal
path never spawns (restarts) a worker process. -/
theorem sigusr2_one_reload_per_signal (n : Nat) :
    (sigusr2Trace n).count (SupervisorAction.rpcCall "reload") = n ∧
    (sigusr2Trace n).count SupervisorAction.spawnWorker = 0 := by
  induction n with
  | zero => simp [sigusr2Trace]
  | succ k ih =>
      simp only [sigusr2Trace, List.count_append, ih.1, ih.2, sigusr2Handler]
      refine ⟨?_, ?_⟩ <;> simp [List.count_cons, List.count_nil]

/-- From `thread.ts` lines 269-271: the scheduled version check —
`client.call("checkUpgrade", ...)` with every failure swallowed by
`.catch(() => do-nothing)`. -/
def checkUpgradeTask (call : String → Except RpcFailure Unit)
    (directory : String) : Except RpcFailure Unit :=
  match call directory with
  | Except.ok u => Except.ok u
  | Except.error _ => Except.ok ()

/-- Claim C8: on every startup exactly one `"checkUpgrade"` task is
scheduled (with a 1000 ms delay), it is scheduled only after the TUI was
launched (never awaited before the launch), and every failure of the call
is swallowed, so no error is ever surfaced. -/
theorem check_upgrade_background (serverMode : Bool)
    (call : String → Except RpcFailure Unit) (directory : String) :
    (handlerTrace true serverMode).count (SupervisorAction.scheduleCheckUpgrade 1000) = 1 ∧
    (∃ pre, handlerTrace true serverMode =
        pre ++ [SupervisorAction.launchTui,
          SupervisorAction.scheduleCheckUpgrade 1000, SupervisorAction.awaitTui] ∧
      SupervisorAction.scheduleCheckUpgrade 1000 ∉ pre ∧
      SupervisorAction.launchTui ∉ pre) ∧
    checkUpgradeTask call directory = Except.ok () := by
  refine ⟨?_, ?_, ?_⟩
  · cases serverMode <;> decide
  · refine ⟨[SupervisorAction.resolveWorkerPath,
      SupervisorAction.spawnWorker,
      SupervisorAction.registerSignalHandler "uncaughtException",
      SupervisorAction.registerSignalHandler "unhandledRejection",
      SupervisorAction.registerSignalHandler "SIGUSR2"] ++
      (if serverMode then [SupervisorAction.rpcCall "server"]
        else [SupervisorAction.constructBridges]), ?_, ?_, ?_⟩
    · cases serverMode <;> decide
    · cases serverMode <;> decide
    · cases serverMode <;> decide
  · unfold checkUpgradeTask
    cases call directory with
    | ok u => cases u; rfl
    | error e => rfl

/-- Claim C9: when `process.chdir` fails, the handler reports the
"Failed to change directory" error and returns at once: it never spawns
the worker, installs a signal handler, or launches the TUI. -/
theorem chdir_failure_aborts_before_spawn (serverMode : Bool) :
    handlerTrace false serverMode =
      [SupervisorAction.resolveWorkerPath,
        SupervisorAction.uiError "Failed to change directory"] ∧
    SupervisorAction.spawnWorker ∉ handlerTrace false serverMode ∧
    (∀ s, SupervisorAction.registerSignalHandler s ∉ handlerTrace false serverMode) ∧
    SupervisorAction.launchTui ∉ handlerTrace false serverMode := by
  refine ⟨rfl, ?_, ?_, ?_⟩
  · simp [handlerTrace]
  · intro s
    simp [handlerTrace]
  · simp [handlerTrace]

/-- Observable actions on the application exit path. -/
inductive ExitAction where
  | unguard
  | rpcCall (method : String)
  | resolveExitPromise
deriving DecidableEq, Repr

/-- From `thread.ts` lines 263-265: the `onExit` callback handed to the
TUI bootstrap — one awaited `"shutdown"` RPC call. -/
def threadOnExit : List ExitAction :=
  [ExitAction.rpcCall "shutdown"]

/-- From `app.tsx` (the `tui` bootstrap) lines 179-183: the exit handler
runs `unguard`, awaits the caller's `onExit`, and only then resolves the
promise returned by `tui`. -/
def tuiOnExit (inputOnExit : List ExitAction) : List ExitAction :=
  [ExitAction.unguard] ++ inputOnExit ++ [ExitAction.resolveExitPromise]

/-- The full supervisor exit trace. The trace is a function of the set of
RPC calls still pending at exit time precisely to record that the exit
path does not consult it: pending calls neither add to nor reorder the
exit actions. -/
def supervisorExitTrace (pendingCalls : List Nat) : List ExitAction :=
  tuiOnExit threadOnExit

/-- Claim C5: on the TUI exit path, `"shutdown"` is called exactly once
and completes (its position in the await chain) before the exit promise
resolves, whatever other calls are still pending. -/
theorem shutdown_awaited_before_exit (pendingCalls : List Nat) :
    supervisorExitTrace pendingCalls =
      [ExitAction.unguard, ExitAction.rpcCall "shutdown", ExitAction.resolveExitPromise] ∧
    (supervisorExitTrace pendingCalls).count (ExitAction.rpcCall "shutdown") = 1 ∧
    (supervisorExitTrace pendingCalls).indexOf (ExitAction.rpcCall "shutdown") <
      (supervisorExitTrace pendingCalls).indexOf ExitAction.resolveExitPromise := by
  have h : supervisorExitTrace pendingCalls =
      [ExitAction.unguard, ExitAction.rpcCall "shutdown", ExitAction.resolveExitPromise] := rfl
  refine ⟨h, ?_, ?_⟩ <;> rw [h] <;> decide

/-- Frame effects of one `Selection.copy` invocation: the returned
boolean, the text handed to `Clipboard.copy` (if any), and whether the
renderer's selection was cleared. -/
structure CopyEffects where
  returned : Bool
  clipboardWrite : Option String
  clearedSelection : Bool
deriving DecidableEq, Repr

/-- A toast surfaced by the copy flow. -/
inductive ToastEvent where
  | info (message : String)
  | errorToast
deriving DecidableEq, Repr

namespace Selection

/-- From `selection.ts` lines 32-42: `copy` reads
`renderer.getSelection()?.getSelectedText()` (here `selection`: `none`
when `getSelection()` returned null, `some t` when the selected text is
`t`); a falsy text (absent selection or empty string) returns false with
no effect; otherwise it initiates the clipboard write, clears the
selection, and returns true. -/
def copy (selection : Option String) : CopyEffects :=
  match selection with
  | none => { returned := false, clipboardWrite := none, clearedSelection := false }
  | some text =>
      if text = "" then
        { returned := false, clipboardWrite := none, clearedSelection := false }
      else
        { returned := true, clipboardWrite := some text, clearedSelection := true }

end Selection

/-- From `selection.ts` lines 36-38: the toasts of the copy flow hang off
the `Clipboard.copy(text)` promise — an info toast on success, the error
toast on failure — so no toast can appear when no write was initiated. -/
def copyToasts (effects : CopyEffects) (clipboardOutcome : Except String Unit) :
    List ToastEvent :=
  match effects.clipboardWrite with
  | none => []
  | some _ =>
      match clipboardOutcome with
      | Except.ok _ => [ToastEvent.info "Copied to clipboard"]
      | Except.error _ => [ToastEvent.errorToast]

/-- Claim C10: with an absent selection or empty selected text,
`Selection.copy` returns false, writes nothing to the clipboard, clears
nothing, and (for any clipboard outcome) shows no toast; with non-empty
selected text it initiates the clipboard write of that text, clears the
selection, and returns true. -/
theorem selection_copy_frame (selection : Option String) :
    ((selection = none ∨ selection = some "") →
      Selection.copy selection =
        { returned := false, clipboardWrite := none, clearedSelection := false } ∧
      ∀ clipboardOutcome,
        copyToasts (Selection.copy selection) clipboardOutcome = []) ∧
    (∀ text, selection = some text → text ≠ "" →
      Selection.copy selection =
        { returned := true, clipboardWrite := some text, clearedSelection := true }) := by
  constructor
  · rintro (rfl | rfl)
    · exact ⟨rfl, fun _ => rfl⟩
    · exact ⟨rfl, fun _ => rfl⟩
  · rintro text rfl htext
    simp [Selection.copy, htext]

/-- Concrete instances of C10: a null selection copies nothing and shows
no toast; the non-empty selection "hi" is written and cleared. -/
theorem selection_copy_frame_witness :
    Selection.copy none =
      { returned := false, clipboardWrite := none, clearedSelection := false } ∧
    copyToasts (Selection.copy none) (Except.ok ()) = [] ∧
    Selection.copy (some "hi") =
      { returned := true, clipboardWrite := some "hi", clearedSelection := true } :=
  ⟨((selection_copy_frame none).1 (Or.inl rfl)).1,
   ((selection_copy_frame none).1 (Or.inl rfl)).2 (Except.ok ()),
   (selection_copy_frame (some "hi")).2 "hi" rfl (by decide)⟩

/-- Modelled from the spec: the RpcChannel implementation (`@/util/rpc`,
`Rpc.client`) is not among the provided sources — only its call sites
are. Inbound traffic on an open channel, per spec section 4.1: a
response correlated by id (carrying a result, `ok = true`, or an error,
`ok = false`), a push event, or the transport's death. -/
inductive InboundMessage where
  | response (id : Nat) (ok : Bool)
  | event
  | close
deriving DecidableEq, Repr

/-- Modelled from the spec: the three ways a pending call's promise can
settle — fulfilled on a result, rejected on a backend error, rejected
with the channel-closed failure on transport death. -/
inductive CallOutcome where
  | fulfilled
  | rejected
  | channelClosed
deriving DecidableEq, Repr

/-- Modelled from the spec (section 4.1): the channel holds the pending
correlation ids and drains the inbound stream. A response whose id is
pending settles that call (removing its entry); a response with no
pending entry is dropped; events do not touch pending calls; on
transport death every still-pending entry is rejected with the
channel-closed failure and processing stops. The returned log lists each
settlement as (id, outcome) in the order it happened. -/
def processInbound : List Nat → List InboundMessage → List (Nat × CallOutcome)
  | _, [] => []
  | pending, InboundMessage.response id ok :: rest =>
      if id ∈ pending then
        (id, if ok then CallOutcome.fulfilled else CallOutcome.rejected) ::
          processInbound (pending.erase id) rest
      else
        processInbound pending rest
  | pending, InboundMessage.event :: rest => processInbound pending rest
  | pending, InboundMessage.close :: _ =>
      pending.map (fun id => (id, CallOutcome.channelClosed))

/-- The settlements recorded for one call id, in order. -/
def resolutionsFor (id : Nat) : List (Nat × CallOutcome) → List CallOutcome
  | [] => []
  | (rid, outcome) :: rest =>
      if rid = id then outcome :: resolutionsFor id rest else resolutionsFor id rest

/-- The first inbound message that can settle the call `id` — its
matching response, or the transport's death — and the outcome that
message dictates; `none` when the stream contains neither. -/
def firstCause (id : Nat) : List InboundMessage → Option CallOutcome
  | [] => none
  | InboundMessage.response rid ok :: rest =>
      if rid = id then
        some (if ok then CallOutcome.fulfilled else CallOutcome.rejected)
      else firstCause id rest
  | InboundMessage.event :: rest => firstCause id rest
  | InboundMessage.close :: _ => some CallOutcome.channelClosed

lemma resolutionsFor_append (id : Nat) (l₁ l₂ : List (Nat × CallOutcome)) :
    resolutionsFor id (l₁ ++ l₂) = resolutionsFor id l₁ ++ resolutionsFor id l₂ := by
  induction l₁ with
  | nil => rfl
  | cons p rest ih =>
      obtain ⟨rid, outcome⟩ := p
      by_cases h : rid = id <;> simp [resolutionsFor, h, ih]

lemma resolutionsFor_map_closed_of_not_mem (id : Nat) (pending : List Nat)
    (h : id ∉ pending) :
    resolutionsFor id (pending.map (fun i => (i, CallOutcome.channelClosed))) = [] := by
  induction pending with
  | nil => rfl
  | cons a rest ih =>
      have ha : a ≠ id := fun hc => h (hc ▸ List.mem_cons_self a rest)
      have hrest : id ∉ rest := fun hc => h (List.mem_cons_of_mem a hc)
      simp [resolutionsFor, ha, ih hrest]

lemma resolutionsFor_map_closed_of_mem (id : Nat) (pending : List Nat)
    (hnodup : pending.Nodup) (h : id ∈ pending) :
    resolutionsFor id (pending.map (fun i => (i, CallOutcome.channelClosed))) =
      [CallOutcome.channelClosed] := by
  induction pending with
  | nil => cases h
  | cons a rest ih =>
      rcases List.mem_cons.mp h with rfl | hmem
      · have hnotin : id ∉ rest := (List.nodup_cons.mp hnodup).1
        simp [resolutionsFor, resolutionsFor_map_closed_of_not_mem id rest hnotin]
      · have ha : a ≠ id := by
          rintro rfl
          exact (List.nodup_cons.mp hnodup).1 hmem
        simp [resolutionsFor, ha, ih (List.nodup_cons.mp hnodup).2 hmem]

lemma processInbound_not_pending (id : Nat) :
    ∀ (msgs : List InboundMessage) (pending : List Nat), id ∉ pending →
      resolutionsFor id (processInbound pending msgs) = [] := by
  intro msgs
  induction msgs with
  | nil => intro pending _; rfl
  | cons m rest ih =>
      intro pending h
      cases m with
      | response rid ok =>
          by_cases hr : rid ∈ pending
          · have hne : rid ≠ id := by rintro rfl; exact h hr
            have hsub : id ∉ pending.erase rid := fun hc => h (List.mem_of_mem_erase hc)
            simp [processInbound, hr, resolutionsFor, hne, ih (pending.erase rid) hsub]
          · simp [processInbound, hr, ih pending h]
      | event => simpa [processInbound] using ih pending h
      | close => simpa [processInbound] using resolutionsFor_map_closed_of_not_mem id pending h

/-- Key characterization: for a call pending on an open channel, the
settlement log for its id is exactly what the first settling message
dictates — nothing if no response arrives and the transport stays alive,
and the single dictated outcome otherwise. -/
lemma processInbound_resolutions (id : Nat) :
    ∀ (msgs : List InboundMessage) (pending : List Nat),
      pending.Nodup → id ∈ pending →
      resolutionsFor id (processInbound pending msgs) = (firstCause id msgs).toList := by
  intro msgs
  induction msgs with
  | nil => intro pending _ _; rfl
  | cons m rest ih =>
      intro pending hnodup hmem
      cases m with
      | response rid ok =>
          by_cases hr : rid ∈ pending
          · by_cases hid : rid = id
            · subst hid
              have hgone : rid ∉ pending.erase rid := hnodup.not_mem_erase
              simp [processInbound, hr, resolutionsFor, firstCause,
                processInbound_not_pending rid rest (pending.erase rid) hgone]
            · have hstill : id ∈ pending.erase rid := (List.mem_erase_of_ne (fun hc => hid hc.symm)).mpr hmem
              simp [processInbound, hr, resolutionsFor, hid, firstCause,
                ih (pending.erase rid) (hnodup.erase rid) hstill]
          · have hid : rid ≠ id := by rintro rfl; exact hr hmem
            simp [processInbound, hr, firstCause, hid, ih pending hnodup hmem]
      | event => simpa [processInbound, firstCause] using ih pending hnodup hmem
      | close =>
          simpa [processInbound, firstCause] using
            resolutionsFor_map_closed_of_mem id pending hnodup hmem

/-- Claim C2: a call pending on an open channel settles at most once
(never both), and as soon as the stream carries a settling message — its
response, or the transport's death — it settles exactly once, fulfilled
on a result, rejected on an error, rejected with the channel-closed
failure on transport death (never neither). -/
theorem rpc_call_resolves_exactly_once (pending : List Nat)
    (msgs : List InboundMessage) (id : Nat)
    (hnodup : pending.Nodup) (hmem : id ∈ pending) :
    (resolutionsFor id (processInbound pending msgs)).length ≤ 1 ∧
    (∀ c, firstCause id msgs = some c →
      resolutionsFor id (processInbound pending msgs) = [c]) := by
  have key := processInbound_resolutions id msgs pending hnodup hmem
  constructor
  · rw [key]
    cases firstCause id msgs <;> simp
  · intro c hc
    rw [key, hc]
    rfl

/-- Concrete instance of C2: with calls 1 and 2 pending, a result for
call 1 followed by transport death settles call 1 exactly once, as
fulfilled. -/
theorem rpc_call_resolves_exactly_once_witness :
    (resolutionsFor 1 (processInbound [1, 2]
        [InboundMessage.response 1 true, InboundMessage.close])).length ≤ 1 ∧
    resolutionsFor 1 (processInbound [1, 2]
        [InboundMessage.response 1 true, InboundMessage.close]) = [CallOutcome.fulfilled] :=
  ⟨(rpc_call_resolves_exactly_once [1, 2]
      [InboundMessage.response 1 true, InboundMessage.close] 1 (by decide) (by decide)).1,
   (rpc_call_resolves_exactly_once [1, 2]
      [InboundMessage.response 1 true, InboundMessage.close] 1 (by decide) (by decide)).2
      CallOutcome.fulfilled rfl⟩
